import Mathlib

/-!
Verification of the multi-agent travel planner sample
(samples/multi-agent-travel-planner/streamlit_app.py).

The Python source is a Streamlit consumer around an orchestrator core
(the module nested_agent_travel_planner, whose source is not part of this
repository snapshot).  The consumer logic (date validation, the run
configuration, the event-consumption loop, progress arithmetic, preview
truncation, result rendering, error handling) is embedded directly from
the source.  The orchestrator run loop and the stage registry are
modelled from the specification where noted in the doc comments.

Strings that Python slices by character are embedded as List Char, so
that the standard take/drop lemmas apply.  Dates are embedded as day
ordinals (Nat); only their ordering is used by the code.
-/

namespace TravelPlanner

/-- One role-tagged entry of the message log (a BaseMessage in the
source).  The content is the character sequence of the Python string. -/
structure Message where
  role : String
  content : List Char
deriving DecidableEq, Repr

/-- Embeds the PlannerState dictionary built at lines 150-164 of
streamlit_app.py: message log, copied request fields, the four summary
slots (initially None), and the current-agent marker. -/
structure PlannerState where
  messages : List Message
  user_request : String
  session_id : String
  origin : String
  destination : String
  departure : String
  return_date : String
  travellers : Int
  flight_summary : Option String
  hotel_summary : Option String
  activities_summary : Option String
  final_itinerary : Option String
  current_agent : String
deriving DecidableEq, Repr

/-- One stage-completion event observed by the consumer loop at lines
203-204: the node name, the updated state snapshot, and the running step
counter the consumer assigns to it. -/
structure StepEvent where
  stage : String
  state : PlannerState
  counter : Nat
deriving DecidableEq, Repr

/-- Embeds the display list at line 187:
agent_steps = ["coordinator", "flight_specialist", "hotel_specialist",
"activity_specialist", "plan_synthesizer"].  It is a fixed literal. -/
def agent_steps : List String :=
  ["coordinator", "flight_specialist", "hotel_specialist",
   "activity_specialist", "plan_synthesizer"]

/-- Embeds total_steps = len(agent_steps) at line 201. -/
def total_steps : Nat := agent_steps.length

/-- Embeds the preview computation at line 222:
content[:300] + "..." if len(content) > 300 else content. -/
def previewOf (content : List Char) : List Char :=
  if content.length > 300 then content.take 300 ++ ['.', '.', '.']
  else content

/-- Embeds lines 213-222: the preview is computed only when the
updated state has a non-empty message log, from its newest (last)
message. -/
def renderPreview (node_state : PlannerState) : Option (List Char) :=
  match node_state.messages.getLast? with
  | none => none
  | some m => some (previewOf m.content)

/-- Python truthiness of an optional string slot, as used by
final_state.get(...) at lines 231-266: None and the empty string are
falsy. -/
def truthyOpt (o : Option String) : Bool :=
  match o with
  | none => false
  | some s => s ≠ ""

/-- The sections of the final-results area of the page, lines 233-268. -/
inductive RSection where
  | itinerary
  | download
  | flight
  | hotel
  | activities
deriving DecidableEq, Repr

/-- Embeds lines 230-268: the itinerary display and the download button
are emitted only when final_itinerary is truthy, and inside that block
each individual summary is emitted only when its own slot is truthy. -/
def renderResults (final_state : PlannerState) : List RSection :=
  if truthyOpt final_state.final_itinerary then
    [RSection.itinerary, RSection.download]
      ++ (if truthyOpt final_state.flight_summary then [RSection.flight] else [])
      ++ (if truthyOpt final_state.hotel_summary then [RSection.hotel] else [])
      ++ (if truthyOpt final_state.activities_summary then [RSection.activities] else [])
  else []

/-- Embeds the config dictionary at lines 170-177: thread id and
metadata from the session id, and recursion_limit = 10. -/
structure RunConfig where
  thread_id : String
  metadata_session_id : String
  metadata_thread_id : String
  recursion_limit : Nat
deriving DecidableEq, Repr

/-- Embeds lines 170-177. -/
def mkConfig (session_id : String) : RunConfig :=
  { thread_id := session_id
    metadata_session_id := session_id
    metadata_thread_id := session_id
    recursion_limit := 10 }

/-- Embeds setup_monitoring at lines 26-34: configure_azure_monitor and
_configure_otlp_tracing run inside a try; any exception is absorbed and
turned into a st.warning message.  The outcome of the external
monitoring call is the argument; the returned list is the warnings
shown. -/
def setup_monitoring (outcome : Except String Unit) : List String :=
  match outcome with
  | Except.ok _ => []
  | Except.error e => ["Monitoring setup failed: " ++ e]

/-- The observable outcome of one click of the plan button: the st.error
messages shown, the st.warning messages shown, whether build_workflow
was reached, the config passed to app.stream (if reached), the events
consumed, the final-result sections rendered, and the exception (if
any) that escaped main uncaught. -/
structure MainResult where
  errors : List String
  warnings : List String
  workflowBuilt : Bool
  config : Option RunConfig
  events : List StepEvent
  rendered : List RSection
  raised : Option String
deriving DecidableEq, Repr

/-- Embeds the body of main after the plan button is pressed (lines
121-272).  Control flow of the source, in order:
line 123: if return_date <= departure_date, st.error and return, before
anything else runs;
line 142: setup_monitoring (its warnings never change the rest);
lines 167-168: build_workflow and compile run OUTSIDE the try block, so
an exception there (buildExc) escapes main uncaught;
lines 170-177: the config is constructed with recursion_limit 10;
lines 199-272: the try block: the stream is consumed (evs are the events
yielded before streamExc, if any, is raised); when the stream ends
normally, line 230 reads node_state, which is unbound when zero events
were yielded (a NameError); every exception inside the try is caught at
line 270 and shown via st.error.  External effects (the opaque core) are
parameters: buildExc, evs, streamExc. -/
def mainAfterButton (req_departure req_return : Nat) (session_id : String)
    (monitoring : Except String Unit) (buildExc : Option String)
    (evs : List StepEvent) (streamExc : Option String) : MainResult :=
  if req_return ≤ req_departure then
    { errors := ["Return date must be after departure date!"]
      warnings := []
      workflowBuilt := false
      config := none
      events := []
      rendered := []
      raised := none }
  else
    let warnings := setup_monitoring monitoring
    match buildExc with
    | some e =>
      { errors := []
        warnings := warnings
        workflowBuilt := false
        config := none
        events := []
        rendered := []
        raised := some e }
    | none =>
      let cfg := mkConfig session_id
      match streamExc with
      | some e =>
        { errors := ["An error occurred while planning your trip: " ++ e]
          warnings := warnings
          workflowBuilt := true
          config := some cfg
          events := evs
          rendered := []
          raised := none }
      | none =>
        match evs.getLast? with
        | none =>
          { errors := ["An error occurred while planning your trip: name node_state is not defined"]
            warnings := warnings
            workflowBuilt := true
            config := some cfg
            events := evs
            rendered := []
            raised := none }
        | some last =>
          { errors := []
            warnings := warnings
            workflowBuilt := true
            config := some cfg
            events := evs
            rendered := renderResults last.state
            raised := none }

/-- Models the st.number_input widget configured at lines 101-106 with
min_value=1, max_value=10: the widget only ever yields a value inside
its configured bounds (out-of-range input is clamped or refused by the
widget), so the value that reaches the rest of main is the requested
value clamped to [min_value, max_value]. -/
def number_input (min_value max_value requested : Int) : Int :=
  max min_value (min max_value requested)

/-- The travellers value produced by the sidebar, lines 101-106. -/
def travelers_input (requested : Int) : Int :=
  number_input 1 10 requested

/-- Embeds the progress value computed at line 208 after the k-th event:
min(step_count / total_steps, 1.0), with total_steps = 5.  Rationals
stand in for Python floats; the quantities involved are small. -/
def progressAt (k : Nat) : ℚ :=
  min ((k : ℚ) / (total_steps : ℚ)) 1

/-- The full sequence of values sent to progress_bar.progress during a
run that consumes n events: one value per event (lines 207-209) and the
final 1.0 after the loop (line 226). -/
def progressDisplays (n : Nat) : List ℚ :=
  ((List.range n).map (fun i => progressAt (i + 1))) ++ [1]

/-- The four named summary slots of the Trip State (spec section 3). -/
inductive Slot where
  | flight
  | hotel
  | activities
  | finalItinerary
deriving DecidableEq, Repr

/-- Modelled from the spec: a StateUpdate (spec section 4.1) is a
partial patch produced by one agent, since the agent implementations of
nested_agent_travel_planner are not part of this snapshot: zero or more
new message-log entries, and at most one assignment to the owned
summary slot. -/
structure StateUpdate where
  newMessages : List Message
  slotAssign : Option (Slot × String)

/-- Modelled from the spec: an Agent (spec section 4.1) is a named unit
of work with an opaque execute capability, since build_workflow and the
concrete agents are not part of this snapshot. -/
structure Agent where
  name : String
  execute : PlannerState → StateUpdate

/-- Modelled from the spec: merging a slot assignment (spec section
4.2) sets the slot only if it is not already set; an already-set slot
is never silently overwritten. -/
def setSlot (st : PlannerState) (s : Slot) (v : String) : PlannerState :=
  match s with
  | Slot.flight =>
      if st.flight_summary.isNone then { st with flight_summary := some v } else st
  | Slot.hotel =>
      if st.hotel_summary.isNone then { st with hotel_summary := some v } else st
  | Slot.activities =>
      if st.activities_summary.isNone then { st with activities_summary := some v } else st
  | Slot.finalItinerary =>
      if st.final_itinerary.isNone then { st with final_itinerary := some v } else st

/-- Modelled from the spec: merging a StateUpdate into the Trip State
(spec section 4.2) appends the new messages and applies the slot
assignment, if any. -/
def mergeUpdate (st : PlannerState) (u : StateUpdate) : PlannerState :=
  let st1 := { st with messages := st.messages ++ u.newMessages }
  match u.slotAssign with
  | none => st1
  | some (s, v) => setSlot st1 s v

/-- Modelled from the spec: the orchestrator run loop (spec section
4.2), since the orchestrator core is not part of this snapshot.  For
each stage in order: if the step counter has reached the ceiling, the
run terminates early; otherwise the current-stage marker is set before
the agent is invoked, the produced update is merged, and a StepEvent
with the incremented counter is emitted. -/
def runStagesAux : List Agent → PlannerState → Nat → Nat → List StepEvent
  | [], _, _, _ => []
  | a :: rest, st, counter, ceiling =>
    if ceiling ≤ counter then []
    else
      let entered := { st with current_agent := a.name }
      let merged := mergeUpdate entered (a.execute entered)
      { stage := a.name, state := merged, counter := counter + 1 }
        :: runStagesAux rest merged (counter + 1) ceiling

/-- Modelled from the spec: run(initialState, stageList, stepCeiling)
(spec section 4.2), with the step counter starting at 0 so the first
emitted event carries counter 1. -/
def runStages (stages : List Agent) (st : PlannerState) (ceiling : Nat) : List StepEvent :=
  runStagesAux stages st 0 ceiling

/-- Modelled from the spec: the stage registry (spec section 4.3) is
the fixed ordered list of five agents whose names are exactly the
agent_steps list of the consumer; their execute capabilities are
opaque parameters. -/
def mkAgents (execs : String → PlannerState → StateUpdate) : List Agent :=
  agent_steps.map (fun n => { name := n, execute := execs n })

/-! Helper lemmas. -/

/-- The run loop emits one event per remaining stage, in order, with
consecutive counters, as long as the ceiling is not hit. -/
theorem runStagesAux_maps (stages : List Agent) (st : PlannerState) (c ceil : Nat)
    (h : c + stages.length ≤ ceil) :
    (runStagesAux stages st c ceil).map StepEvent.stage = stages.map Agent.name ∧
    (runStagesAux stages st c ceil).map StepEvent.counter
      = List.range' (c + 1) stages.length := by
  induction stages generalizing st c with
  | nil => simp [runStagesAux]
  | cons a rest ih =>
    have hlt : ¬ ceil ≤ c := by
      simp only [List.length_cons] at h
      omega
    have h2 : (c + 1) + rest.length ≤ ceil := by
      simp only [List.length_cons] at h
      omega
    obtain ⟨h3, h4⟩ := ih (mergeUpdate { st with current_agent := a.name }
      (a.execute { st with current_agent := a.name })) (c + 1) h2
    simp only [runStagesAux, if_neg hlt, List.map_cons, List.length_cons,
      List.range'_succ]
    exact ⟨by rw [h3], by rw [h4]⟩

/-! Claim theorems. -/

/-- Claim C1: a trip request whose return date is equal to or earlier
than the departure date is rejected before the core is invoked: the
error is shown, the workflow is never built (no run config is even
constructed), and zero step events are emitted. -/
theorem reject_when_return_not_after_departure
    (dep ret : Nat) (sid : String) (mon : Except String Unit)
    (buildExc : Option String) (evs : List StepEvent) (streamExc : Option String)
    (h : ret ≤ dep) :
    (mainAfterButton dep ret sid mon buildExc evs streamExc).errors
        = ["Return date must be after departure date!"] ∧
    (mainAfterButton dep ret sid mon buildExc evs streamExc).workflowBuilt = false ∧
    (mainAfterButton dep ret sid mon buildExc evs streamExc).events = [] ∧
    (mainAfterButton dep ret sid mon buildExc evs streamExc).config = none := by
  unfold mainAfterButton
  rw [if_pos h]
  exact ⟨rfl, rfl, rfl, rfl⟩

/-- Witness for claim C1 at a concrete input with equal dates. -/
theorem reject_when_return_not_after_departure_witness :
    (100 : Nat) ≤ 100 ∧
    ((mainAfterButton 100 100 "session-1" (Except.ok ()) none [] none).errors
        = ["Return date must be after departure date!"] ∧
     (mainAfterButton 100 100 "session-1" (Except.ok ()) none [] none).workflowBuilt = false ∧
     (mainAfterButton 100 100 "session-1" (Except.ok ()) none [] none).events = [] ∧
     (mainAfterButton 100 100 "session-1" (Except.ok ()) none [] none).config = none) :=
  ⟨le_refl 100,
   reject_when_return_not_after_departure 100 100 "session-1" (Except.ok ())
     none [] none (le_refl 100)⟩

/-- Claim C2: a run of the full five-stage list (with the default
ceiling 10 used by the caller) yields exactly one StepEvent per stage,
in declared order, with counters exactly 1, 2, 3, 4, 5: the first event
is step 1 and each subsequent event increases the count by one. -/
theorem full_run_one_event_per_stage (execs : String → PlannerState → StateUpdate)
    (st : PlannerState) :
    (runStages (mkAgents execs) st 10).map StepEvent.stage = agent_steps ∧
    (runStages (mkAgents execs) st 10).map StepEvent.counter = [1, 2, 3, 4, 5] ∧
    (runStages (mkAgents execs) st 10).length = 5 := by
  have hlen : (mkAgents execs).length = 5 := by simp [mkAgents, agent_steps]
  obtain ⟨h1, h2⟩ := runStagesAux_maps (mkAgents execs) st 0 10 (by rw [hlen]; omega)
  have hnames : (mkAgents execs).map Agent.name = agent_steps := by
    rw [mkAgents, List.map_map]
    exact List.map_id agent_steps
  refine ⟨by rw [runStages, h1, hnames], by rw [runStages, h2, hlen]; rfl, ?_⟩
  have := congrArg List.length h2
  simpa [hlen] using this

/-- Claim C3: the stage sequence is the fixed literal list of exactly
five agent names in the declared order, with no duplicates, and the
modelled stage registry carries exactly these names in this order for
every choice of agent behaviours. -/
theorem stage_list_fixed_five (execs : String → PlannerState → StateUpdate) :
    agent_steps = ["coordinator", "flight_specialist", "hotel_specialist",
      "activity_specialist", "plan_synthesizer"] ∧
    agent_steps.length = 5 ∧
    agent_steps.Nodup ∧
    (mkAgents execs).map Agent.name = agent_steps := by
  refine ⟨rfl, rfl, by decide, ?_⟩
  rw [mkAgents, List.map_map]
  exact List.map_id agent_steps

/-- Claim C4: whenever the workflow is built and invoked, the config
passed to app.stream is the one built from the session id, and it
carries recursion_limit = 10. -/
theorem stream_config_recursion_limit_ten
    (dep ret : Nat) (sid : String) (mon : Except String Unit)
    (evs : List StepEvent) (streamExc : Option String)
    (h : dep < ret) :
    (mainAfterButton dep ret sid mon none evs streamExc).config = some (mkConfig sid) ∧
    (mkConfig sid).recursion_limit = 10 := by
  refine ⟨?_, rfl⟩
  unfold mainAfterButton
  rw [if_neg (Nat.not_le.mpr h)]
  cases streamExc with
  | some e => rfl
  | none =>
    cases evs.getLast? with
    | none => rfl
    | some last => rfl

/-- Witness for claim C4 at a concrete valid input. -/
theorem stream_config_recursion_limit_ten_witness :
    (21 : Nat) < 26 ∧
    ((mainAfterButton 21 26 "session-1" (Except.ok ()) none [] none).config
        = some (mkConfig "session-1") ∧
     (mkConfig "session-1").recursion_limit = 10) :=
  ⟨by decide,
   stream_config_recursion_limit_ten 21 26 "session-1" (Except.ok ()) [] none (by decide)⟩

/-- Claim C6: the travellers value produced by the number-input widget
is always an integer between 1 and 10 inclusive. -/
theorem travelers_always_in_range (requested : Int) :
    1 ≤ travelers_input requested ∧ travelers_input requested ≤ 10 := by
  unfold travelers_input number_input
  exact ⟨le_max_left _ _, max_le (by norm_num) (min_le_left _ _)⟩

/-- Claim C5: for a step event whose updated state has a non-empty
message log, the rendered preview is computed from the newest message:
the full content when its length is at most 300 characters, otherwise
the 300-character prefix of the content followed by an ellipsis marker;
the shown message characters always form a leading segment of the
content of length at most 300. -/
theorem preview_truncates_newest_message
    (st : PlannerState) (m : Message) (h : st.messages.getLast? = some m) :
    renderPreview st = some (previewOf m.content) ∧
    (m.content.length ≤ 300 → previewOf m.content = m.content) ∧
    (300 < m.content.length →
      previewOf m.content = m.content.take 300 ++ ['.', '.', '.']) ∧
    (m.content.take 300).length ≤ 300 ∧
    m.content.take 300 ++ m.content.drop 300 = m.content := by
  refine ⟨?_, ?_, ?_, ?_, List.take_append_drop 300 m.content⟩
  · simp [renderPreview, h]
  · intro hle
    rw [previewOf, if_neg (by omega : ¬ m.content.length > 300)]
  · intro hgt
    rw [previewOf, if_pos hgt]
  · rw [List.length_take]
    exact min_le_left _ _

/-- A concrete message and state used to witness claim C5. -/
def sampleMessage : Message :=
  { role := "assistant", content := ['h', 'i'] }

/-- A concrete planner state whose message log ends with sampleMessage. -/
def sampleState : PlannerState :=
  { messages := [sampleMessage]
    user_request := ""
    session_id := "session-1"
    origin := "Seattle"
    destination := "Tokyo"
    departure := "2026-11-02"
    return_date := "2026-11-07"
    travellers := 2
    flight_summary := none
    hotel_summary := none
    activities_summary := none
    final_itinerary := none
    current_agent := "start" }

/-- Witness for claim C5 at the concrete sample state. -/
theorem preview_truncates_newest_message_witness :
    sampleState.messages.getLast? = some sampleMessage ∧
    (renderPreview sampleState = some (previewOf sampleMessage.content) ∧
     (sampleMessage.content.length ≤ 300 →
       previewOf sampleMessage.content = sampleMessage.content) ∧
     (300 < sampleMessage.content.length →
       previewOf sampleMessage.content
         = sampleMessage.content.take 300 ++ ['.', '.', '.']) ∧
     (sampleMessage.content.take 300).length ≤ 300 ∧
     sampleMessage.content.take 300 ++ sampleMessage.content.drop 300
       = sampleMessage.content) :=
  ⟨rfl, preview_truncates_newest_message sampleState sampleMessage rfl⟩

/-- Claim C7: a failing monitoring setup is absorbed: it only adds a
warning, and every other observable of the run (errors, whether the
workflow is built, the config, the consumed events, the rendered
sections, and any escaped exception) is identical to a run whose
monitoring setup succeeds. -/
theorem monitoring_failure_does_not_affect_run
    (dep ret : Nat) (sid : String) (e : String) (buildExc : Option String)
    (evs : List StepEvent) (streamExc : Option String) :
    (mainAfterButton dep ret sid (Except.error e) buildExc evs streamExc).errors
      = (mainAfterButton dep ret sid (Except.ok ()) buildExc evs streamExc).errors ∧
    (mainAfterButton dep ret sid (Except.error e) buildExc evs streamExc).workflowBuilt
      = (mainAfterButton dep ret sid (Except.ok ()) buildExc evs streamExc).workflowBuilt ∧
    (mainAfterButton dep ret sid (Except.error e) buildExc evs streamExc).config
      = (mainAfterButton dep ret sid (Except.ok ()) buildExc evs streamExc).config ∧
    (mainAfterButton dep ret sid (Except.error e) buildExc evs streamExc).events
      = (mainAfterButton dep ret sid (Except.ok ()) buildExc evs streamExc).events ∧
    (mainAfterButton dep ret sid (Except.error e) buildExc evs streamExc).rendered
      = (mainAfterButton dep ret sid (Except.ok ()) buildExc evs streamExc).rendered ∧
    (mainAfterButton dep ret sid (Except.error e) buildExc evs streamExc).raised
      = (mainAfterButton dep ret sid (Except.ok ()) buildExc evs streamExc).raised ∧
    setup_monitoring (Except.error e) = ["Monitoring setup failed: " ++ e] := by
  unfold mainAfterButton
  by_cases hd : ret ≤ dep
  · simp [if_pos hd, setup_monitoring]
  · simp only [if_neg hd]
    cases buildExc with
    | some b => exact ⟨rfl, rfl, rfl, rfl, rfl, rfl, rfl⟩
    | none =>
      cases streamExc with
      | some s2 => exact ⟨rfl, rfl, rfl, rfl, rfl, rfl, rfl⟩
      | none =>
        cases evs.getLast? with
        | none => exact ⟨rfl, rfl, rfl, rfl, rfl, rfl, rfl⟩
        | some last => exact ⟨rfl, rfl, rfl, rfl, rfl, rfl, rfl⟩

/-- Claim C8: the itinerary display and the download button appear
exactly when the final_itinerary slot is present and non-empty, and
each individual summary section appears exactly when the itinerary is
shown and its own slot is present and non-empty; an absent slot simply
produces no section. -/
theorem results_rendered_only_when_slots_set (fs : PlannerState) :
    (RSection.itinerary ∈ renderResults fs ↔ truthyOpt fs.final_itinerary = true) ∧
    (RSection.download ∈ renderResults fs ↔ truthyOpt fs.final_itinerary = true) ∧
    (RSection.flight ∈ renderResults fs ↔
      truthyOpt fs.final_itinerary = true ∧ truthyOpt fs.flight_summary = true) ∧
    (RSection.hotel ∈ renderResults fs ↔
      truthyOpt fs.final_itinerary = true ∧ truthyOpt fs.hotel_summary = true) ∧
    (RSection.activities ∈ renderResults fs ↔
      truthyOpt fs.final_itinerary = true ∧ truthyOpt fs.activities_summary = true) := by
  unfold renderResults
  by_cases h1 : truthyOpt fs.final_itinerary = true <;>
    by_cases h2 : truthyOpt fs.flight_summary = true <;>
      by_cases h3 : truthyOpt fs.hotel_summary = true <;>
        by_cases h4 : truthyOpt fs.activities_summary = true <;>
          simp [h1, h2, h3, h4]

/-- Counterexample for claim C9: an exception raised while building the
workflow (lines 167-168, before the try block begins at line 199)
escapes main uncaught, with no error message rendered, at this concrete
valid input. -/
theorem build_exception_escapes_main :
    (mainAfterButton 21 26 "session-1" (Except.ok ()) (some "boom") [] none).raised
      = some "boom" ∧
    (mainAfterButton 21 26 "session-1" (Except.ok ()) (some "boom") [] none).errors
      = [] :=
  ⟨rfl, rfl⟩

/-- Claim C9 (amended): every exception raised inside the try block —
while streaming, or the unbound final-state read when the stream yields
zero events — is caught and rendered as an error message, and nothing
escapes main; only a failure of the build/compile step, which runs
before the try block, escapes. -/
theorem try_block_exceptions_caught
    (dep ret : Nat) (sid : String) (mon : Except String Unit)
    (evs : List StepEvent) (streamExc : Option String) (msg : String) :
    (mainAfterButton dep ret sid mon none evs streamExc).raised = none ∧
    (mainAfterButton dep ret sid mon none evs (some msg)).errors ≠ [] ∧
    (mainAfterButton dep ret sid mon none [] none).errors ≠ [] := by
  unfold mainAfterButton
  by_cases hd : ret ≤ dep
  · simp [if_pos hd]
  · simp only [if_neg hd]
    refine ⟨?_, by simp, by simp⟩
    cases streamExc with
    | some e => rfl
    | none =>
      cases evs.getLast? with
      | none => rfl
      | some last => rfl

/-- Claim C10: the progress values displayed during a run that consumes
n events are min((k)/5, 1) after the k-th event followed by a final 1;
the displayed sequence is non-decreasing, never exceeds 1, and its last
value is exactly 1. -/
theorem progress_capped_monotone (n : Nat) :
    progressDisplays n
      = ((List.range n).map (fun (i : Nat) => min (((i : ℚ) + 1) / 5) 1)) ++ [1] ∧
    List.Chain' (· ≤ ·) (progressDisplays n) ∧
    ((progressDisplays n).all (fun q => decide (q ≤ 1))) = true ∧
    (progressDisplays n).getLast? = some 1 := by
  have h5 : (total_steps : ℚ) = 5 := by norm_num [total_steps, agent_steps]
  have hval : ∀ i : Nat, progressAt (i + 1) = min (((i : ℚ) + 1) / 5) 1 := by
    intro i
    unfold progressAt
    rw [h5]
    push_cast
    rfl
  have hle1 : ∀ i : Nat, progressAt (i + 1) ≤ 1 := by
    intro i
    exact min_le_right _ _
  have hmono : ∀ a b : Nat, a ≤ b → progressAt (a + 1) ≤ progressAt (b + 1) := by
    intro a b hab
    unfold progressAt
    rw [h5]
    refine min_le_min ?_ le_rfl
    have hc : ((a + 1 : Nat) : ℚ) ≤ ((b + 1 : Nat) : ℚ) := by
      exact_mod_cast Nat.succ_le_succ hab
    gcongr
  refine ⟨?_, ?_, ?_, List.getLast?_concat _⟩
  · unfold progressDisplays
    congr 1
    exact List.map_congr_left (fun i _ => hval i)
  · unfold progressDisplays
    refine List.chain'_append.mpr ⟨?_, List.chain'_singleton 1, ?_⟩
    · refine (List.chain'_map _).mpr ?_
      refine List.Chain'.imp ?_ (List.pairwise_lt_range n).chain'
      intro a b hab
      exact hmono a b (le_of_lt hab)
    · intro x hx y hy
      have hy1 : (1 : ℚ) = y := by simpa using hy
      obtain ⟨i, _, rfl⟩ := List.mem_map.mp (List.mem_of_mem_getLast? hx)
      rw [← hy1]
      exact hle1 i
  · rw [List.all_eq_true]
    intro q hq
    rw [decide_eq_true_eq]
    simp only [progressDisplays] at hq
    rcases List.mem_append.mp hq with hm | hm
    · obtain ⟨i, _, rfl⟩ := List.mem_map.mp hm
      exact hle1 i
    · rw [List.mem_singleton] at hm
      rw [hm]

end TravelPlanner
